import Mathlib

/-!
# Desktop shell of `script.js`: window registry, taskbar, explorer, gallery, menus

A shallow embedding of the handlers of `src/script.js`.  The document is a
record of the nodes the handlers read and write; every handler is a function
from state to state.  A handler that throws a `TypeError` stops where it
throws, so its result is the state as mutated up to that statement.

Conventions of the embedding.

* `.window` elements are listed in document order; an element is identified
  by its position in that list, which is what a closure capturing `win`
  holds on to.  Elements whose id starts with `window-` are taken to be
  `.window` elements.
* `dataset` entries are `Option String` (`none` is `undefined`); inline style
  properties are strings (`""` is unset); `style.zIndex` is kept parsed.
* The counter `zIndex` is an unbounded integer (the source increments a
  number that starts at 100; precision loss above 2^53 is out of scope).
* `.menu-btn` elements are listed in document order and are taken to lie
  inside a `.win-menu`, so the selector `.win-menu .menu-btn.open` reaches
  every menu button carrying the class `open`.
* `playSound` only touches audio elements and is left out; the temporary
  pointer-move listeners of a drag only write `left`/`top` and are left out.
-/

namespace XPDesktop

/-! ## Window registry -/

/-- The inline `style.zIndex` of a window: unset (`''`), a non-numeric
keyword such as `auto`, or an integer. -/
inductive ZStyle where
  | unset
  | keyword
  | num (z : Int)
  deriving DecidableEq, Repr

/-- Embeds `parseInt(win.style.zIndex)`; `none` stands for `NaN`. -/
def ZStyle.parseInt : ZStyle → Option Int
  | .unset => none
  | .keyword => none
  | .num z => some z

/-- Embeds `parseInt(win.style.zIndex || 0)`: the empty string is falsy and is
replaced by `0`; `none` stands for `NaN`. -/
def ZStyle.parseIntOrZero : ZStyle → Option Int
  | .unset => some 0
  | .keyword => none
  | .num z => some z

/-- A `.window` element: its DOM id, the inline style properties and the
`dataset` entries the script uses. -/
structure Window where
  id : String
  display : String
  zIndex : ZStyle
  left : String
  top : String
  width : String
  height : String
  resize : String
  dataOpen : Option String
  dataMinimized : Option String
  dataMaximized : Option String
  dataPrevLeft : Option String
  dataPrevTop : Option String
  dataPrevWidth : Option String
  dataPrevHeight : Option String
  deriving DecidableEq, Repr

/-- What `obj[key]` yields on an object literal: an own property, a member
inherited from `Object.prototype` (truthy, none of the fields of a record),
or `undefined`. -/
inductive JsLookup (α : Type) where
  | own (a : α)
  | inherited
  | undefined
  deriving DecidableEq, Repr

/-- Property names every object literal inherits from `Object.prototype`. -/
def objectPrototypeKeys : List String :=
  ["constructor", "hasOwnProperty", "isPrototypeOf", "propertyIsEnumerable",
   "toLocaleString", "toString", "valueOf", "__proto__",
   "__defineGetter__", "__defineSetter__", "__lookupGetter__", "__lookupSetter__"]

/-- Last definition of `key` in an object literal written as a list of
entries in source order (a repeated key keeps the later value). -/
def lastEntry {α : Type} (key : String) : List (String × α) → Option α
  | [] => none
  | (k, v) :: rest =>
    match lastEntry key rest with
    | some v' => some v'
    | none => if k = key then some v else none

/-- Semantics of `obj[key]` for an object literal. -/
def jsGet {α : Type} (obj : List (String × α)) (key : String) : JsLookup α :=
  match lastEntry key obj with
  | some v => .own v
  | none => if key ∈ objectPrototypeKeys then .inherited else .undefined

/-- The `src` given to a taskbar icon. -/
inductive IconSrc where
  | path (p : String)
  | inheritedMember (key : String)
  deriving DecidableEq, Repr

/-- The literal `iconMap`. -/
def iconMap : List (String × String) :=
  [("about", "img/chrome_icon.png"),
   ("work", "img/file_icon.png"),
   ("contact", "img/mail_icon.png"),
   ("resume", "img/word_icon.png"),
   ("notepad", "img/file_icon.png"),
   ("ai", "img/clippy.png")]

/-- A taskbar button as built by `updateTaskbar`: the captured window
element, whether it got the pressed styling, its icon and its text. -/
structure Button where
  win : Nat
  active : Bool
  icon : IconSrc
  label : String
  deriving DecidableEq, Repr

/-- The part of the page the window manager works on. -/
structure State where
  zIndex : Int
  windows : List Window
  taskbar : List Button
  startMenu : String
  deriving DecidableEq, Repr

/-- Position of the first window with the given DOM id:
`document.getElementById`. -/
def getElementById (domId : String) : List Window → Option Nat
  | [] => none
  | w :: ws => if w.id = domId then some 0 else (getElementById domId ws).map (· + 1)

/-- Apply `f` to the element at position `i`. -/
def modifyWin (f : Window → Window) : Nat → List Window → List Window
  | _, [] => []
  | 0, w :: ws => f w :: ws
  | n + 1, w :: ws => w :: modifyWin f n ws

/-- Embeds `str.replace(pat, '')` on the characters of a string: the first
occurrence of `pat` is removed. -/
def replaceFirst (pat : List Char) : List Char → List Char
  | [] => []
  | c :: cs =>
    if pat.isPrefixOf (c :: cs) then (c :: cs).drop pat.length
    else c :: replaceFirst pat cs

/-- Embeds `win.id.replace('window-', '')`. -/
def winIdOf (domId : String) : String :=
  ⟨replaceFirst "window-".data domId.data⟩

/-- Embeds `id === 'contact' ? 'Contact Me' : id.charAt(0).toUpperCase() + id.slice(1)`
(ids are taken to be ASCII). -/
def buttonLabel (id : String) : String :=
  if id = "contact" then "Contact Me" else id.capitalize

/-- Embeds `iconMap[id] || 'img/chrome_icon.png'`. -/
def buttonIcon (id : String) : IconSrc :=
  match jsGet iconMap id with
  | .own p => if p = "" then .path "img/chrome_icon.png" else .path p
  | .inherited => .inheritedMember id
  | .undefined => .path "img/chrome_icon.png"

/-- The button `updateTaskbar` builds for the window at position `i`. -/
def mkButton (z : Int) (i : Nat) (w : Window) : Button :=
  { win := i
    active := decide (w.zIndex.parseInt = some z) && decide (w.display ≠ "none")
    icon := buttonIcon (winIdOf w.id)
    label := buttonLabel (winIdOf w.id) }

/-- The `forEach` of `updateTaskbar` over the windows from position `i` on. -/
def buttonsFrom (z : Int) : Nat → List Window → List Button
  | _, [] => []
  | i, w :: ws =>
    if w.dataOpen = some "true" then mkButton z i w :: buttonsFrom z (i + 1) ws
    else buttonsFrom z (i + 1) ws

/-- Embeds `updateTaskbar()`. -/
def updateTaskbar (s : State) : State :=
  { s with taskbar := buttonsFrom s.zIndex 0 s.windows }

/-- Embeds `openWindow(id)`. -/
def openWindow (id : String) (s : State) : State :=
  match getElementById ("window-" ++ id) s.windows with
  | none => s
  | some i =>
    updateTaskbar
      { s with
        zIndex := s.zIndex + 1
        windows := modifyWin (fun w =>
          { w with display := "block", dataOpen := some "true",
                   dataMinimized := some "false", zIndex := .num (s.zIndex + 1) }) i s.windows }

/-- Embeds `closeWindow(id)`. -/
def closeWindow (id : String) (s : State) : State :=
  match getElementById ("window-" ++ id) s.windows with
  | none => s
  | some i =>
    updateTaskbar
      { s with
        windows := modifyWin (fun w =>
          { w with display := "none", dataOpen := some "false",
                   dataMinimized := some "false" }) i s.windows }

/-- Embeds `minimizeWindow(id)`. -/
def minimizeWindow (id : String) (s : State) : State :=
  match getElementById ("window-" ++ id) s.windows with
  | none => s
  | some i =>
    updateTaskbar
      { s with
        windows := modifyWin (fun w =>
          { w with display := "none", dataMinimized := some "true" }) i s.windows }

/-- Embeds `a || b` on an optional string: `undefined` and `''` are falsy. -/
def orElse (a : Option String) (b : String) : String :=
  match a with
  | none => b
  | some v => if v = "" then b else v

/-- The restore branch of `toggleMaximize`. -/
def restoreGeometry (w : Window) : Window :=
  { w with
    left := orElse w.dataPrevLeft "100px"
    top := orElse w.dataPrevTop "100px"
    width := orElse w.dataPrevWidth "auto"
    height := orElse w.dataPrevHeight "auto"
    resize := "both"
    dataMaximized := some "false" }

/-- The maximize branch of `toggleMaximize`, `z` being the incremented
counter. -/
def maximizeGeometry (z : Int) (w : Window) : Window :=
  { w with
    dataPrevLeft := some w.left
    dataPrevTop := some w.top
    dataPrevWidth := some w.width
    dataPrevHeight := some w.height
    left := "0px"
    top := "0px"
    width := "100vw"
    height := "calc(100vh - 30px)"
    resize := "none"
    dataMaximized := some "true"
    zIndex := .num z }

/-- Embeds `toggleMaximize(id)`.  The taskbar is not rebuilt. -/
def toggleMaximize (id : String) (s : State) : State :=
  match getElementById ("window-" ++ id) s.windows with
  | none => s
  | some i =>
    match s.windows[i]? with
    | none => s
    | some w =>
      if w.dataMaximized = some "true" then
        { s with windows := modifyWin restoreGeometry i s.windows }
      else
        { s with
          zIndex := s.zIndex + 1
          windows := modifyWin (maximizeGeometry (s.zIndex + 1)) i s.windows }

/-- The `mousedown` listener, for a press on the header of the window at
position `i` outside its controls, menu and `.no-drag` parts. -/
def headerMouseDown (i : Nat) (s : State) : State :=
  if i < s.windows.length then
    updateTaskbar
      { s with
        zIndex := s.zIndex + 1
        windows := modifyWin (fun w => { w with zIndex := .num (s.zIndex + 1) }) i s.windows }
  else s

/-- The `onclick` closure of the taskbar button built for the window at
position `i`. -/
def btnOnClick (i : Nat) (s : State) : State :=
  match s.windows[i]? with
  | none => s
  | some w =>
    if w.display = "none" then
      updateTaskbar
        { s with
          zIndex := s.zIndex + 1
          windows := modifyWin (fun w =>
            { w with display := "block", dataMinimized := some "false",
                     zIndex := .num (s.zIndex + 1) }) i s.windows }
    else if w.zIndex.parseIntOrZero = some s.zIndex then
      updateTaskbar (minimizeWindow (winIdOf w.id) s)
    else
      updateTaskbar
        { s with
          zIndex := s.zIndex + 1
          windows := modifyWin (fun w => { w with zIndex := .num (s.zIndex + 1) }) i s.windows }

/-- A click on the taskbar button of the window at position `i`; there is
nothing to click when the taskbar holds no such button. -/
def taskbarClick (i : Nat) (s : State) : State :=
  if s.taskbar.any (fun b => b.win == i) then btnOnClick i s else s

/-- Embeds `logout()`, as far as the window manager is concerned. -/
def logout (s : State) : State :=
  updateTaskbar
    { s with
      startMenu := "none"
      windows := s.windows.map (fun w => { w with display := "none", dataOpen := some "false" }) }

/-- The window initialisation of the `DOMContentLoaded` listener followed
by its `updateTaskbar()`, on the windows found in the markup. -/
def domContentLoaded (markup : List Window) (startMenu : String) : State :=
  updateTaskbar
    { zIndex := 100
      windows := markup.map (fun w =>
        { w with
          dataOpen := some (if w.display = "block" then "true" else "false")
          dataMinimized := some (if w.display = "block" then "false" else "true")
          dataMaximized := some "false" })
      taskbar := []
      startMenu := startMenu }

/-- The events that reach the window manager. -/
inductive Action where
  | openWindow (id : String)
  | closeWindow (id : String)
  | minimizeWindow (id : String)
  | toggleMaximize (id : String)
  | headerMouseDown (i : Nat)
  | taskbarClick (i : Nat)
  | logout
  deriving DecidableEq, Repr

/-- One event handled to completion. -/
def step (s : State) : Action → State
  | .openWindow id => openWindow id s
  | .closeWindow id => closeWindow id s
  | .minimizeWindow id => minimizeWindow id s
  | .toggleMaximize id => toggleMaximize id s
  | .headerMouseDown i => headerMouseDown i s
  | .taskbarClick i => taskbarClick i s
  | .logout => logout s

/-- A sequence of events, handled one after the other. -/
def run (s : State) (acts : List Action) : State :=
  acts.foldl step s

/-- The window an event brings to the front in state `s`, if it is one of the
focus-changing events: `openWindow` of a window in the document, a header
`mousedown`, a taskbar click that restores or raises, `toggleMaximize` of a
window that is not maximized. -/
def focusTarget (s : State) : Action → Option Nat
  | .openWindow id => getElementById ("window-" ++ id) s.windows
  | .headerMouseDown i => if i < s.windows.length then some i else none
  | .taskbarClick i =>
    if s.taskbar.any (fun b => b.win == i) then
      match s.windows[i]? with
      | none => none
      | some w =>
        if w.display = "none" then some i
        else if w.zIndex.parseIntOrZero = some s.zIndex then none
        else some i
    else none
  | .toggleMaximize id =>
    match getElementById ("window-" ++ id) s.windows with
    | none => none
    | some i =>
      match s.windows[i]? with
      | none => none
      | some w => if w.dataMaximized = some "true" then none else some i
  | _ => none

/-! ## Virtual file explorer -/

/-- An entry of a folder.  The text body of `text` items is only handed to
the notepad and is not kept here. -/
structure Item where
  id : String
  name : String
  type : String
  icon : Option String
  url : Option String
  src : Option String
  deriving DecidableEq, Repr

/-- A node of the folder table. -/
structure Folder where
  name : String
  parent : Option String
  path : String
  items : List Item
  deriving DecidableEq, Repr

/-- The literal `fileSystem`, entry by entry in source order; the key
`websites` is written twice. -/
def fileSystem : List (String × Folder) :=
  [("root",
    { name := "Projects", parent := none, path := "C:\\My Documents\\Projects",
      items :=
        [{ id := "websites", name := "Websites", type := "folder", icon := some "img/file_icon.png", url := none, src := none },
         { id := "graphics", name := "Graphics", type := "folder", icon := some "img/file_icon.png", url := none, src := none },
         { id := "unity", name := "Game", type := "folder", icon := some "img/file_icon.png", url := none, src := none },
         { id := "unity", name := "Media", type := "folder", icon := some "img/file_icon.png", url := none, src := none }] }),
   ("websites",
    { name := "Websites", parent := some "root", path := "C:\\My Documents\\Projects\\Websites",
      items :=
        [{ id := "proveritas", name := "Proveritas.html", type := "link", icon := some "img/chrome_icon.png",
           url := some "https://www.proveritas.com.au/", src := none },
         { id := "nswuwh", name := "NSW_UWH.html", type := "link", icon := some "img/chrome_icon.png",
           url := some "https://nswunderwaterhockey.com/", src := none },
         { id := "readme", name := "README.txt", type := "text", icon := some "img/file_icon.png",
           url := none, src := none }] }),
   ("graphics",
    { name := "Graphics", parent := some "root", path := "C:\\My Documents\\Projects\\Graphics",
      items :=
        [{ id := "img1", name := "carousel_cover.png", type := "image", icon := none, url := none, src := some "img/graphics/pro1.png" },
         { id := "img2", name := "email_banner.png", type := "image", icon := none, url := none, src := some "img/graphics/pro2.png" },
         { id := "img3", name := "tourny_logo.png", type := "image", icon := none, url := none, src := some "img/graphics/uwh1.png" },
         { id := "img4", name := "neon_wallpaper.psd", type := "image", icon := none, url := none, src := some "img/graphics/uwh2.png" },
         { id := "img5", name := "pullup_banner.png", type := "image", icon := none, url := none, src := some "img/graphics/uwh3.png" },
         { id := "img6", name := "results.png", type := "image", icon := none, url := none, src := some "img/graphics/uwh4.png" },
         { id := "img7", name := "announcement.jpg", type := "image", icon := none, url := none, src := some "img/graphics/uwh5.jpg" },
         { id := "img8", name := "tourny_banner.png", type := "image", icon := none, url := none, src := some "img/graphics/uwh6.png" }] }),
   ("unity",
    { name := "Game", parent := some "root", path := "C:\\My Documents\\Projects\\Game",
      items :=
        [{ id := "game1", name := "game_report.pdf", type := "link", icon := some "img/file_icon.png",
           url := some "doc/COMP1150_GDT_Report_Isaak.pdf", src := none }] }),
   ("websites",
    { name := "Websites", parent := some "root", path := "C:\\My Documents\\Projects\\Websites",
      items :=
        [{ id := "nationals", name := "uwhnationalsau.html", type := "link", icon := some "img/chrome_icon.png",
           url := some "https://www.facebook.com/uwhnationalsau", src := none },
         { id := "nswuwh", name := "NSW_UWH.html", type := "link", icon := some "img/chrome_icon.png",
           url := some "https://www.facebook.com/nswunderwaterhockey/", src := none },
         { id := "sydkings", name := "syd_kings.html", type := "link", icon := some "img/chrome_icon.png",
           url := some "https://www.facebook.com/sydneyuwh/", src := none },
         { id := "readme", name := "README.txt", type := "text", icon := some "img/file_icon.png",
           url := none, src := none }] })]

/-- Whether `id` is a key of the folder table (an own property of
`fileSystem`). -/
def isFolderId (id : String) : Bool :=
  (lastEntry id fileSystem).isSome

/-- One element of the file grid: what it shows and what its click handler
captured. -/
structure GridEntry where
  iconSrc : String
  name : String
  item : Item
  folderId : String
  deriving DecidableEq, Repr

/-- State of the explorer: `currentPathId`, the value of the address input
and the children of the grid; `none` is an element missing from the page. -/
structure Explorer where
  currentPathId : String
  address : Option String
  grid : Option (List GridEntry)
  deriving DecidableEq, Repr

/-- The icon chosen for an item by the `forEach` body of `renderExplorer`. -/
def itemIcon (item : Item) : String :=
  let iconSrc := if item.type = "image" then some "img/file_icon.png" else item.icon
  orElse iconSrc "img/file_icon.png"

/-- The grid element built for one item. -/
def mkEntry (folderId : String) (item : Item) : GridEntry :=
  { iconSrc := itemIcon item, name := item.name, item := item, folderId := folderId }

/-- Embeds `renderExplorer(folderId)`.  The grid is emptied before the folder is
looked up.  An inherited member passes the `!folder` test; its `path` is
`undefined` and reading `items.forEach` throws. -/
def renderExplorer (folderId : String) (e : Explorer) : Explorer :=
  match e.grid with
  | none => e
  | some _ =>
    let e1 := { e with grid := some [] }
    match jsGet fileSystem folderId with
    | .undefined => e1
    | .inherited =>
      let e2 := { e1 with currentPathId := folderId }
      match e2.address with
      | none => e2
      | some _ => { e2 with address := some "undefined" }
    | .own folder =>
      let e2 := { e1 with currentPathId := folderId }
      match e2.address with
      | none => e2
      | some _ =>
        { e2 with address := some folder.path
                  grid := some (folder.items.map (mkEntry folderId)) }

/-- Embeds `navigateExplorer(id)`. -/
def navigateExplorer (id : String) (e : Explorer) : Explorer :=
  renderExplorer id e

/-- Embeds `goBack()`; `d` is the window manager state it reads `window-work` from. -/
def goBack (d : State) (e : Explorer) : Explorer :=
  match getElementById "window-work" d.windows with
  | none => e
  | some i =>
    match d.windows[i]? with
    | none => e
    | some workWindow =>
      if workWindow.display = "none" then e
      else
        match jsGet fileSystem e.currentPathId with
        | .own curr =>
          match curr.parent with
          | none => e
          | some p => if p = "" then e else renderExplorer p e
        | _ => e

/-- Embeds `goUp()`. -/
def goUp (d : State) (e : Explorer) : Explorer :=
  goBack d e

/-- Effect on the explorer of the `onclick` closure of a grid element: a
folder item renders its sub-folder; links, images and text items open
something else and leave the explorer as it is. -/
def entryOnClick (entry : GridEntry) (e : Explorer) : Explorer :=
  if entry.item.type = "folder" then renderExplorer entry.item.id e else e

/-- A click on the `k`-th element of the grid. -/
def gridClick (k : Nat) (e : Explorer) : Explorer :=
  match e.grid with
  | none => e
  | some entries =>
    match entries[k]? with
    | none => e
    | some entry => entryOnClick entry e

/-- The events that reach the explorer. -/
inductive ExplorerAction where
  | render (id : String)
  | goBack (d : State)
  | goUp (d : State)
  | click (k : Nat)

/-- One explorer event handled to completion. -/
def explorerStep (e : Explorer) : ExplorerAction → Explorer
  | .render id => renderExplorer id e
  | .goBack d => goBack d e
  | .goUp d => goUp d e
  | .click k => gridClick k e

/-- A sequence of explorer events. -/
def explorerRun (e : Explorer) (acts : List ExplorerAction) : Explorer :=
  acts.foldl explorerStep e

/-- The explorer as the script leaves it once loaded: `currentPathId = 'root'`
followed by the `renderExplorer('root')` of the `DOMContentLoaded` listener,
on a page with an address input and a grid. -/
def explorerLoaded : Explorer :=
  renderExplorer "root" { currentPathId := "root", address := some "", grid := some [] }

/-! ## Gallery -/

/-- State of the gallery: the two globals, the overlay's `style.display`,
the image's `src` and the caption's text. -/
structure Gallery where
  galleryImages : List Item
  currentImgIndex : Int
  overlayDisplay : String
  imgSrc : String
  caption : String
  deriving DecidableEq, Repr

/-- Embeds `Array.prototype.findIndex`: the first position satisfying `p`, or `-1`. -/
def jsFindIndex (p : Item → Bool) : List Item → Int
  | [] => -1
  | x :: xs =>
    if p x then 0
    else
      let r := jsFindIndex p xs
      if r = -1 then -1 else r + 1

/-- Embeds `galleryImages[currentImgIndex]`; `none` is `undefined`. -/
def imageAt (g : Gallery) : Option Item :=
  if g.currentImgIndex < 0 then none else g.galleryImages[g.currentImgIndex.toNat]?

/-- Embeds `updateGalleryImage()`; it throws before writing anything when the
indexed image is `undefined`. -/
def updateGalleryImage (g : Gallery) : Gallery :=
  match imageAt g with
  | none => g
  | some imgObj =>
    { g with
      imgSrc := imgObj.src.getD "undefined"
      caption := imgObj.name ++ " (" ++ toString (g.currentImgIndex + 1) ++ " of " ++
        toString g.galleryImages.length ++ ")" }

/-- Embeds `openGallery(folderId, startImageId)`. -/
def openGallery (folderId startImageId : String) (g : Gallery) : Gallery :=
  match jsGet fileSystem folderId with
  | .undefined => g
  | .inherited => g
  | .own folder =>
    let g1 := { g with galleryImages := folder.items.filter (fun i => i.type = "image") }
    if g1.galleryImages.length = 0 then g1
    else
      let found := jsFindIndex (fun i => i.id = startImageId) g1.galleryImages
      let g2 := { g1 with currentImgIndex := if found = -1 then 0 else found }
      { updateGalleryImage g2 with overlayDisplay := "flex" }

/-- Embeds `closeGallery()`. -/
def closeGallery (g : Gallery) : Gallery :=
  { g with overlayDisplay := "none" }

/-- Embeds `nextImage()`. -/
def nextImage (g : Gallery) : Gallery :=
  let i := g.currentImgIndex + 1
  updateGalleryImage
    { g with currentImgIndex := if i ≥ (g.galleryImages.length : Int) then 0 else i }

/-- Embeds `prevImage()`. -/
def prevImage (g : Gallery) : Gallery :=
  let i := g.currentImgIndex - 1
  updateGalleryImage
    { g with currentImgIndex := if i < 0 then (g.galleryImages.length : Int) - 1 else i }

/-- The gallery before it is first opened: the initial values of the two
globals, the overlay hidden. -/
def galleryInit : Gallery :=
  { galleryImages := [], currentImgIndex := 0, overlayDisplay := "none", imgSrc := "", caption := "" }

/-- The calls that reach the gallery. -/
inductive GalleryAction where
  | openGallery (folderId startImageId : String)
  | nextImage
  | prevImage
  | closeGallery
  deriving DecidableEq, Repr

/-- One gallery call run to completion. -/
def galleryStep (g : Gallery) : GalleryAction → Gallery
  | .openGallery folderId startImageId => openGallery folderId startImageId g
  | .nextImage => nextImage g
  | .prevImage => prevImage g
  | .closeGallery => closeGallery g

/-- A sequence of gallery calls. -/
def galleryRun (g : Gallery) (acts : List GalleryAction) : Gallery :=
  acts.foldl galleryStep g

/-! ## Start menu and window menus -/

/-- A `.menu-btn` element: whether its class list holds `open` and whether
it holds `menu-disabled`. -/
structure MenuBtn where
  openClass : Bool
  menuDisabled : Bool
  deriving DecidableEq, Repr

/-- The menus of the page: the `style.display` of `#startMenu` and the menu
buttons of the windows. -/
structure Menus where
  startMenu : String
  menuBtns : List MenuBtn
  deriving DecidableEq, Repr

/-- Embeds `toggleStartMenu()`. -/
def toggleStartMenu (m : Menus) : Menus :=
  { m with startMenu := if m.startMenu = "flex" then "none" else "flex" }

/-- The `forEach` of `toggleWindowMenu`: `open` is removed from every menu
button other than the one at position `k`. -/
def closeOthers : Nat → List MenuBtn → List MenuBtn
  | _, [] => []
  | 0, b :: bs => b :: bs.map (fun c => { c with openClass := false })
  | n + 1, b :: bs => { b with openClass := false } :: closeOthers n bs

/-- The `classList.toggle('open')` on the menu button at position `k`. -/
def toggleOpenAt : Nat → List MenuBtn → List MenuBtn
  | _, [] => []
  | 0, b :: bs => { b with openClass := !b.openClass } :: bs
  | n + 1, b :: bs => b :: toggleOpenAt n bs

/-- Embeds `toggleWindowMenu(btn, ev)` for the menu button at position `k`.
The final `ev.stopPropagation()` writes nothing; it keeps the click from
reaching the document listener. -/
def toggleWindowMenu (k : Nat) (m : Menus) : Menus :=
  match m.menuBtns[k]? with
  | none => m
  | some btn =>
    if btn.menuDisabled then m
    else { m with menuBtns := toggleOpenAt k (closeOthers k m.menuBtns) }

/-- Where a click landed, as the document `click` listener tests it:
`closest('#startMenu')`, `closest('.start-button')`, `closest('.menu-btn')`. -/
structure ClickTarget where
  inStartMenu : Bool
  inStartButton : Bool
  inMenuBtn : Bool
  deriving DecidableEq, Repr

/-- The document `click` listener. -/
def documentClick (t : ClickTarget) (m : Menus) : Menus :=
  let m1 := if !t.inStartMenu && !t.inStartButton then { m with startMenu := "none" } else m
  if !t.inMenuBtn then
    { m1 with menuBtns := m1.menuBtns.map (fun c => { c with openClass := false }) }
  else m1

/-- A click on the start button: its handler `toggleStartMenu()` runs, then
the click reaches the document listener as one inside `.start-button`. -/
def startButtonClick (m : Menus) : Menus :=
  documentClick { inStartMenu := false, inStartButton := true, inMenuBtn := false }
    (toggleStartMenu m)

/-- A click on the menu button at position `k`, its handler being
`toggleWindowMenu(btn, event)`.  On an enabled button the handler ends with
`ev.stopPropagation()` and the document listener does not run; on a
disabled one it returns at once and the click reaches the listener as one
inside a `.menu-btn`. -/
def menuBtnClick (k : Nat) (m : Menus) : Menus :=
  match m.menuBtns[k]? with
  | none => m
  | some btn =>
    if btn.menuDisabled then
      documentClick { inStartMenu := false, inStartButton := false, inMenuBtn := true } m
    else toggleWindowMenu k m

/-- The events that reach the menus. -/
inductive MenuAction where
  | toggleStartMenu
  | toggleWindowMenu (k : Nat)
  | documentClick (t : ClickTarget)
  deriving DecidableEq, Repr

/-- One menu event handled to completion. -/
def menuStep (m : Menus) : MenuAction → Menus
  | .toggleStartMenu => toggleStartMenu m
  | .toggleWindowMenu k => toggleWindowMenu k m
  | .documentClick t => documentClick t m

/-- A sequence of menu events. -/
def menuRun (m : Menus) (acts : List MenuAction) : Menus :=
  acts.foldl menuStep m

/-- Number of window menu buttons carrying `open`. -/
def openWindowMenus (m : Menus) : Nat :=
  (m.menuBtns.filter (fun b => b.openClass)).length

/-- Number of open top-level menus: the start menu when shown (`flex`),
plus every window menu button carrying `open`. -/
def openMenus (m : Menus) : Nat :=
  (if m.startMenu = "flex" then 1 else 0) + openWindowMenus m

/-! ## Predicates used in the statements -/

/-- No window of the list has a numeric stacking rank above `z`. -/
def RanksBelow (z : Int) (ws : List Window) : Prop :=
  ∀ w ∈ ws, ∀ r, w.zIndex = .num r → r ≤ z

/-- Going from `s` to `t` incremented the counter and gave the new value to
the window at position `i`, touching the rank of no other window. -/
def Raised (s : State) (i : Nat) (t : State) : Prop :=
  t.zIndex = s.zIndex + 1 ∧ i < s.windows.length ∧
    ∃ f : Window → Window, (∀ w, (f w).zIndex = .num (s.zIndex + 1)) ∧
      t.windows = modifyWin f i s.windows

/-- The four geometry properties of a window: left, top, width, height. -/
def geometry (w : Window) : String × String × String × String :=
  (w.left, w.top, w.width, w.height)

/-- The explorer points at a folder of the table, and every folder entry
shown in the grid leads to a folder of the table. -/
def ExplorerOk (e : Explorer) : Prop :=
  isFolderId e.currentPathId = true ∧
    ∀ es, e.grid = some es → ∀ en ∈ es, en.item.type = "folder" →
      isFolderId en.item.id = true

/-! ## Sample pages used to instantiate the theorems -/

/-- A window as markup may declare it: hidden, nothing else set. -/
def sampleWindow (domId : String) : Window :=
  { id := domId, display := "none", zIndex := .unset, left := "", top := "", width := "",
    height := "", resize := "", dataOpen := none, dataMinimized := none, dataMaximized := none,
    dataPrevLeft := none, dataPrevTop := none, dataPrevWidth := none, dataPrevHeight := none }

/-- A page with two hidden windows, `window-about` and `window-contact`. -/
def sampleMarkup : List Window :=
  [sampleWindow "window-about", sampleWindow "window-contact"]

/-- A short session: both windows are opened, `about` is maximized and
`contact` is minimized. -/
def sampleSession : List Action :=
  [.openWindow "about", .openWindow "contact", .toggleMaximize "about",
   .minimizeWindow "contact"]

/-- A placed window: `window-about` shown at (40px, 60px), 400px wide, with
no inline height. -/
def placedWindow : Window :=
  { sampleWindow "window-about" with
    display := "block", left := "40px", top := "60px", width := "400px" }

/-- The sample page with both windows opened, `contact` last. -/
def twoOpen : State :=
  run (domContentLoaded sampleMarkup "none") [.openWindow "about", .openWindow "contact"]

/-- The `contact` window of `twoOpen`, the one in front. -/
def contactWin : Window :=
  twoOpen.windows.getD 1 (sampleWindow "")

/-- The `graphics` entry of the folder table. -/
def graphicsFolder : Folder :=
  (lastEntry "graphics" fileSystem).getD
    { name := "", parent := none, path := "", items := [] }

/-- A gallery over the images of the `graphics` folder, at its last image. -/
def sampleGallery : Gallery :=
  openGallery "graphics" "img8" galleryInit

/-- The gallery opened on `graphics` at its third image, `img3`. -/
def graphicsAtThird : Gallery :=
  openGallery "graphics" "img3" galleryInit

/-- A page with the start menu hidden and two enabled, closed window menu
buttons. -/
def sampleMenus : Menus :=
  { startMenu := "none"
    menuBtns := [{ openClass := false, menuDisabled := false },
                 { openClass := false, menuDisabled := false }] }

/-- A page whose markup gives `window-about` the inline rank 101, next to a
plain `window-contact`. -/
def rankedMarkup : List Window :=
  [{ sampleWindow "window-about" with zIndex := .num 101 }, sampleWindow "window-contact"]

/-! ### Basic facts on the registry -/

theorem modifyWin_length (f : Window → Window) (i : Nat) (ws : List Window) :
    (modifyWin f i ws).length = ws.length := by
  induction ws generalizing i with
  | nil => cases i <;> rfl
  | cons w ws ih =>
    cases i with
    | zero => rfl
    | succ n => simp [modifyWin, ih]

theorem modifyWin_getElem? (f : Window → Window) (i j : Nat) (ws : List Window) :
    (modifyWin f i ws)[j]? = if j = i then ws[j]?.map f else ws[j]? := by
  induction ws generalizing i j with
  | nil => cases i <;> simp [modifyWin]
  | cons w ws ih =>
    cases i with
    | zero =>
      cases j with
      | zero => simp [modifyWin]
      | succ m => simp [modifyWin]
    | succ n =>
      cases j with
      | zero => simp [modifyWin]
      | succ m => simp [modifyWin, ih]

theorem getElementById_lt {domId : String} {ws : List Window} {i : Nat}
    (h : getElementById domId ws = some i) : i < ws.length := by
  induction ws generalizing i with
  | nil => simp [getElementById] at h
  | cons w ws ih =>
    unfold getElementById at h
    split at h
    · cases h; simp
    · cases hr : getElementById domId ws with
      | none => simp [hr] at h
      | some k =>
        simp [hr] at h
        subst h
        have := ih hr
        simp
        omega

theorem getElementById_id {domId : String} {ws : List Window} {i : Nat}
    (h : getElementById domId ws = some i) : ∃ w, ws[i]? = some w ∧ w.id = domId := by
  induction ws generalizing i with
  | nil => simp [getElementById] at h
  | cons w ws ih =>
    unfold getElementById at h
    split at h
    · cases h; exact ⟨w, by simp, by assumption⟩
    · cases hr : getElementById domId ws with
      | none => simp [hr] at h
      | some k =>
        simp [hr] at h
        subst h
        obtain ⟨w', hw', hid⟩ := ih hr
        exact ⟨w', by simpa using hw', hid⟩

/-- Changing fields other than the id does not move an element found by id. -/
theorem getElementById_modifyWin (f : Window → Window) (hf : ∀ w, (f w).id = w.id)
    (domId : String) (i : Nat) (ws : List Window) :
    getElementById domId (modifyWin f i ws) = getElementById domId ws := by
  induction ws generalizing i with
  | nil => cases i <;> rfl
  | cons w ws ih =>
    cases i with
    | zero => simp [modifyWin, getElementById, hf]
    | succ n => simp [modifyWin, getElementById, ih]

/-! ## Theorems -/

/-- C1: for a window id present in the document and any prior state, after
`openWindow(id)` the window is displayed (`block`), its open flag is
`true`, its minimized flag is `false`, and its stacking rank equals the
global counter, which is the previous counter plus one. -/
theorem openWindow_spec (s : State) (id : String) (i : Nat)
    (h : getElementById ("window-" ++ id) s.windows = some i) :
    (openWindow id s).zIndex = s.zIndex + 1 ∧
    getElementById ("window-" ++ id) (openWindow id s).windows = some i ∧
    ∃ w, (openWindow id s).windows[i]? = some w ∧
      w.display = "block" ∧ w.dataOpen = some "true" ∧
      w.dataMinimized = some "false" ∧ w.zIndex = .num (openWindow id s).zIndex := by
  obtain ⟨w0, hw0, _⟩ := getElementById_id h
  refine ⟨?_, ?_, ?_⟩
  · simp [openWindow, h, updateTaskbar]
  · simp only [openWindow, h, updateTaskbar]
    refine Eq.trans (getElementById_modifyWin _ ?_ _ _ _) h
    intro w
    rfl
  · simp [openWindow, h, updateTaskbar, modifyWin_getElem?, hw0]

/-- C1 at a concrete page: opening `contact` on a page holding a hidden
`window-contact`. -/
theorem openWindow_spec_witness :
    (openWindow "contact" (domContentLoaded [sampleWindow "window-contact"] "none")).zIndex = 101 ∧
    getElementById ("window-" ++ "contact")
      (openWindow "contact" (domContentLoaded [sampleWindow "window-contact"] "none")).windows = some 0 ∧
    ∃ w, (openWindow "contact"
        (domContentLoaded [sampleWindow "window-contact"] "none")).windows[0]? = some w ∧
      w.display = "block" ∧ w.dataOpen = some "true" ∧
      w.dataMinimized = some "false" ∧
      w.zIndex = .num (openWindow "contact"
        (domContentLoaded [sampleWindow "window-contact"] "none")).zIndex :=
  openWindow_spec (domContentLoaded [sampleWindow "window-contact"] "none") "contact" 0 (by decide)

/-! ### Stacking order -/

theorem mem_modifyWin {f : Window → Window} {i : Nat} {ws : List Window} {v : Window}
    (h : v ∈ modifyWin f i ws) : v ∈ ws ∨ ∃ w ∈ ws, v = f w := by
  induction ws generalizing i with
  | nil => cases i <;> simp [modifyWin] at h
  | cons w ws ih =>
    cases i with
    | zero =>
      simp only [modifyWin, List.mem_cons] at h
      rcases h with h | h
      · exact Or.inr ⟨w, by simp, h⟩
      · exact Or.inl (by simp [h])
    | succ n =>
      simp only [modifyWin, List.mem_cons] at h
      rcases h with h | h
      · exact Or.inl (by simp [h])
      · rcases ih h with h' | ⟨u, hu, hv⟩
        · exact Or.inl (by simp [h'])
        · exact Or.inr ⟨u, by simp [hu], hv⟩

/-- Raising the bound, and rewriting one window so that its rank is kept or
set to something within the new bound, keeps all ranks within the bound. -/
theorem ranksBelow_modifyWin {z z' : Int} {ws : List Window} (f : Window → Window) (i : Nat)
    (hz : z ≤ z') (h : RanksBelow z ws)
    (hf : ∀ w, (f w).zIndex = w.zIndex ∨ ∃ r, r ≤ z' ∧ (f w).zIndex = .num r) :
    RanksBelow z' (modifyWin f i ws) := by
  intro v hv r hr
  rcases mem_modifyWin hv with hmem | ⟨w, hw, rfl⟩
  · exact le_trans (h v hmem r hr) hz
  · rcases hf w with hk | ⟨r', hr', hk⟩
    · rw [hk] at hr
      exact le_trans (h w hw r hr) hz
    · rw [hk] at hr
      cases hr
      exact hr'

theorem ranksBelow_updateTaskbar {s : State} (h : RanksBelow s.zIndex s.windows) :
    RanksBelow (updateTaskbar s).zIndex (updateTaskbar s).windows := h

theorem ranksBelow_openWindow (id : String) {s : State} (h : RanksBelow s.zIndex s.windows) :
    RanksBelow (openWindow id s).zIndex (openWindow id s).windows := by
  unfold openWindow
  split
  · exact h
  · exact ranksBelow_modifyWin _ _ (Int.le_add_one (le_refl _)) h (fun w => Or.inr ⟨_, le_refl _, rfl⟩)

theorem ranksBelow_closeWindow (id : String) {s : State} (h : RanksBelow s.zIndex s.windows) :
    RanksBelow (closeWindow id s).zIndex (closeWindow id s).windows := by
  unfold closeWindow
  split
  · exact h
  · exact ranksBelow_modifyWin _ _ (le_refl _) h (fun w => Or.inl rfl)

theorem ranksBelow_minimizeWindow (id : String) {s : State}
    (h : RanksBelow s.zIndex s.windows) :
    RanksBelow (minimizeWindow id s).zIndex (minimizeWindow id s).windows := by
  unfold minimizeWindow
  split
  · exact h
  · exact ranksBelow_modifyWin _ _ (le_refl _) h (fun w => Or.inl rfl)

theorem ranksBelow_toggleMaximize (id : String) {s : State}
    (h : RanksBelow s.zIndex s.windows) :
    RanksBelow (toggleMaximize id s).zIndex (toggleMaximize id s).windows := by
  unfold toggleMaximize
  split
  · exact h
  · split
    · exact h
    · split
      · exact ranksBelow_modifyWin _ _ (le_refl _) h (fun w => Or.inl rfl)
      · exact ranksBelow_modifyWin _ _ (Int.le_add_one (le_refl _)) h (fun w => Or.inr ⟨_, le_refl _, rfl⟩)

theorem ranksBelow_headerMouseDown (i : Nat) {s : State}
    (h : RanksBelow s.zIndex s.windows) :
    RanksBelow (headerMouseDown i s).zIndex (headerMouseDown i s).windows := by
  unfold headerMouseDown
  split
  · exact ranksBelow_modifyWin _ _ (Int.le_add_one (le_refl _)) h (fun w => Or.inr ⟨_, le_refl _, rfl⟩)
  · exact h

theorem ranksBelow_btnOnClick (i : Nat) {s : State} (h : RanksBelow s.zIndex s.windows) :
    RanksBelow (btnOnClick i s).zIndex (btnOnClick i s).windows := by
  unfold btnOnClick
  split
  · exact h
  · split
    · exact ranksBelow_modifyWin _ _ (Int.le_add_one (le_refl _)) h (fun w => Or.inr ⟨_, le_refl _, rfl⟩)
    · split
      · exact ranksBelow_updateTaskbar (ranksBelow_minimizeWindow _ h)
      · exact ranksBelow_modifyWin _ _ (Int.le_add_one (le_refl _)) h (fun w => Or.inr ⟨_, le_refl _, rfl⟩)

theorem ranksBelow_logout {s : State} (h : RanksBelow s.zIndex s.windows) :
    RanksBelow (logout s).zIndex (logout s).windows := by
  intro v hv r hr
  simp only [logout, updateTaskbar, List.mem_map] at hv
  obtain ⟨w, hw, rfl⟩ := hv
  exact h w hw r hr

/-- Every handler keeps all stacking ranks within the counter. -/
theorem ranksBelow_step (a : Action) {s : State} (h : RanksBelow s.zIndex s.windows) :
    RanksBelow (step s a).zIndex (step s a).windows := by
  cases a with
  | openWindow id => exact ranksBelow_openWindow id h
  | closeWindow id => exact ranksBelow_closeWindow id h
  | minimizeWindow id => exact ranksBelow_minimizeWindow id h
  | toggleMaximize id => exact ranksBelow_toggleMaximize id h
  | headerMouseDown i => exact ranksBelow_headerMouseDown i h
  | taskbarClick i =>
    simp only [step, taskbarClick]
    split
    · exact ranksBelow_btnOnClick i h
    · exact h
  | logout => exact ranksBelow_logout h

theorem ranksBelow_run (acts : List Action) {s : State} (h : RanksBelow s.zIndex s.windows) :
    RanksBelow (run s acts).zIndex (run s acts).windows := by
  induction acts generalizing s with
  | nil => exact h
  | cons a acts ih => exact ih (ranksBelow_step a h)

theorem ranksBelow_domContentLoaded (markup : List Window) (startMenu : String)
    (hm : ∀ w ∈ markup, ∀ z, w.zIndex = .num z → z ≤ 100) :
    RanksBelow (domContentLoaded markup startMenu).zIndex
      (domContentLoaded markup startMenu).windows := by
  intro v hv r hr
  simp only [domContentLoaded, updateTaskbar, List.mem_map] at hv
  obtain ⟨w, hw, rfl⟩ := hv
  exact hm w hw r hr

/-- A focus-changing event increments the counter and hands the new value
to its target. -/
theorem focusTarget_raised {s : State} {a : Action} {i : Nat}
    (h : focusTarget s a = some i) : Raised s i (step s a) := by
  cases a with
  | openWindow id =>
    simp only [focusTarget] at h
    simp only [step, openWindow, h, updateTaskbar]
    refine ⟨rfl, getElementById_lt h, _, ?_, rfl⟩
    intro w
    rfl
  | closeWindow id => simp [focusTarget] at h
  | minimizeWindow id => simp [focusTarget] at h
  | logout => simp [focusTarget] at h
  | headerMouseDown k =>
    simp only [focusTarget] at h
    split at h
    · cases h
      rename_i hk
      simp only [step, headerMouseDown, hk, if_true, updateTaskbar]
      refine ⟨rfl, hk, _, ?_, rfl⟩
      intro w
      rfl
    · cases h
  | toggleMaximize id =>
    simp only [focusTarget] at h
    split at h
    · cases h
    · rename_i k hk
      split at h
      · cases h
      · rename_i w hw
        split at h
        · cases h
        · cases h
          rename_i hmax
          simp only [step, toggleMaximize, hk, hw, hmax, if_false]
          refine ⟨rfl, getElementById_lt hk, _, ?_, rfl⟩
          intro w
          rfl
  | taskbarClick k =>
    simp only [focusTarget] at h
    split at h
    · rename_i hb
      split at h
      · cases h
      · rename_i w hw
        have hlt : k < s.windows.length := by
          by_contra hc
          rw [List.getElem?_eq_none (by omega)] at hw
          cases hw
        split at h
        · cases h
          rename_i hd
          simp only [step, taskbarClick, hb, if_true, btnOnClick, hw, hd, updateTaskbar]
          refine ⟨rfl, hlt, _, ?_, rfl⟩
          intro w
          rfl
        · split at h
          · cases h
          · cases h
            rename_i hd hz
            simp only [step, taskbarClick, hb, if_true, btnOnClick, hw, hd, hz, if_false,
              updateTaskbar]
            refine ⟨rfl, hlt, _, ?_, rfl⟩
            intro w
            rfl
    · cases h

/-- After a raise from a state whose ranks are within the counter, the
raised window is the only one whose rank is the counter. -/
theorem raised_unique {s t : State} {i : Nat} (hr : Raised s i t)
    (hs : RanksBelow s.zIndex s.windows) :
    i < t.windows.length ∧
      ∀ j w, t.windows[j]? = some w → (w.zIndex = .num t.zIndex ↔ j = i) := by
  obtain ⟨hz, hi, f, hf, hw⟩ := hr
  refine ⟨by rw [hw, modifyWin_length]; exact hi, ?_⟩
  intro j w hj
  rw [hw, modifyWin_getElem?] at hj
  by_cases hji : j = i
  · subst hji
    simp only [if_true, Option.map_eq_some'] at hj
    obtain ⟨u, _, rfl⟩ := hj
    simp [hf, hz]
  · simp only [hji, if_false] at hj
    have hmem : w ∈ s.windows := List.getElem?_mem hj
    constructor
    · intro hwz
      have := hs w hmem _ hwz
      omega
    · intro hc
      exact absurd hc hji

/-- C2 (as stated) fails: on a page whose markup gives `window-about` the
inline rank 101, the first focus-changing event `openWindow('contact')`
raises the counter from 100 to 101 and hands it to `contact`, while `about`
still holds 101: two windows have the counter as rank, not the focused one
alone. -/
theorem focus_not_unique_counterexample :
    (domContentLoaded rankedMarkup "none").zIndex = 100 ∧
    focusTarget (run (domContentLoaded rankedMarkup "none") []) (.openWindow "contact") =
      some 1 ∧
    (step (run (domContentLoaded rankedMarkup "none") []) (.openWindow "contact")).zIndex =
      101 ∧
    (step (run (domContentLoaded rankedMarkup "none") [])
      (.openWindow "contact")).windows.map Window.zIndex = [.num 101, .num 101] ∧
    ¬ (∀ j w, (step (run (domContentLoaded rankedMarkup "none") [])
        (.openWindow "contact")).windows[j]? = some w →
      (w.zIndex = .num (step (run (domContentLoaded rankedMarkup "none") [])
        (.openWindow "contact")).zIndex ↔ j = 1)) := by
  refine ⟨by decide, by decide, by decide, by decide, ?_⟩
  intro h
  have h0 := (h 0 _ rfl).mp (by decide)
  exact absurd h0 (by decide)

/-- C2 (amended): from the loaded page of a markup that gives no window an
inline rank above the initial counter 100, and after any history of events,
each focus-changing event (`openWindow`, header `mousedown`, a taskbar click that restores or
raises, `toggleMaximize` entering the maximized state) leaves exactly one
window whose stacking rank equals the global counter, and it is the window
that event focused. -/
theorem focus_unique_top (markup : List Window) (startMenu : String)
    (hm : ∀ w ∈ markup, ∀ z, w.zIndex = .num z → z ≤ 100)
    (acts : List Action) (a : Action) (i : Nat)
    (hf : focusTarget (run (domContentLoaded markup startMenu) acts) a = some i) :
    i < (step (run (domContentLoaded markup startMenu) acts) a).windows.length ∧
      ∀ j w, (step (run (domContentLoaded markup startMenu) acts) a).windows[j]? = some w →
        (w.zIndex = .num (step (run (domContentLoaded markup startMenu) acts) a).zIndex ↔
          j = i) :=
  raised_unique (focusTarget_raised hf)
    (ranksBelow_run acts (ranksBelow_domContentLoaded markup startMenu hm))

/-- C2 at a concrete session: after `sampleSession`, a click on the taskbar
button of the minimized `contact` window restores it, and it alone holds the
counter value. -/
theorem focus_unique_top_witness :
    focusTarget (run (domContentLoaded sampleMarkup "none") sampleSession) (.taskbarClick 1) =
      some 1 ∧
    (1 < (step (run (domContentLoaded sampleMarkup "none") sampleSession)
        (.taskbarClick 1)).windows.length ∧
      ∀ j w, (step (run (domContentLoaded sampleMarkup "none") sampleSession)
          (.taskbarClick 1)).windows[j]? = some w →
        (w.zIndex = .num (step (run (domContentLoaded sampleMarkup "none") sampleSession)
          (.taskbarClick 1)).zIndex ↔ j = 1)) :=
  ⟨by decide,
   focus_unique_top sampleMarkup "none"
     (by
       intro w hw z hz
       simp only [sampleMarkup, List.mem_cons, List.mem_singleton, List.not_mem_nil,
         or_false] at hw
       rcases hw with rfl | rfl <;> cases hz)
     sampleSession (.taskbarClick 1) 1 (by decide)⟩

/-! ### Maximize and restore -/

/-- C3 (as stated) fails: on the loaded sample page the `about` window has
no inline geometry and is not maximized; two calls of `toggleMaximize` leave
it at `100px`/`100px`/`auto`/`auto` instead of the original empty values. -/
theorem toggleMaximize_twice_counterexample :
    (domContentLoaded sampleMarkup "none").windows[0]?.map (fun w => w.dataMaximized) =
      some (some "false") ∧
    (domContentLoaded sampleMarkup "none").windows[0]?.map geometry = some ("", "", "", "") ∧
    (toggleMaximize "about" (toggleMaximize "about"
      (domContentLoaded sampleMarkup "none"))).windows[0]?.map geometry =
      some ("100px", "100px", "auto", "auto") ∧
    (toggleMaximize "about" (toggleMaximize "about"
      (domContentLoaded sampleMarkup "none"))).windows[0]?.map geometry ≠
      (domContentLoaded sampleMarkup "none").windows[0]?.map geometry := by
  decide

/-- C3 (amended): two calls of `toggleMaximize(id)` on a window that is not
maximized leave its maximized flag `false` and give back every geometry
value that was set; an unset `left` or `top` comes back as `100px`, an unset
`width` or `height` as `auto`. -/
theorem toggleMaximize_twice (s : State) (id : String) (i : Nat) (w : Window)
    (hi : getElementById ("window-" ++ id) s.windows = some i)
    (hw : s.windows[i]? = some w)
    (hmax : w.dataMaximized ≠ some "true") :
    ∃ w', (toggleMaximize id (toggleMaximize id s)).windows[i]? = some w' ∧
      w'.dataMaximized = some "false" ∧
      w'.left = (if w.left = "" then "100px" else w.left) ∧
      w'.top = (if w.top = "" then "100px" else w.top) ∧
      w'.width = (if w.width = "" then "auto" else w.width) ∧
      w'.height = (if w.height = "" then "auto" else w.height) := by
  have h1 : toggleMaximize id s =
      { s with zIndex := s.zIndex + 1
               windows := modifyWin (maximizeGeometry (s.zIndex + 1)) i s.windows } := by
    simp only [toggleMaximize, hi, hw, hmax, if_false]
  have hi' : getElementById ("window-" ++ id)
      (modifyWin (maximizeGeometry (s.zIndex + 1)) i s.windows) = some i := by
    refine Eq.trans (getElementById_modifyWin _ ?_ _ _ _) hi
    intro u
    rfl
  have hw' : (modifyWin (maximizeGeometry (s.zIndex + 1)) i s.windows)[i]? =
      some (maximizeGeometry (s.zIndex + 1) w) := by
    rw [modifyWin_getElem?, hw]
    simp
  refine ⟨restoreGeometry (maximizeGeometry (s.zIndex + 1) w), ?_, rfl, rfl, rfl, rfl, rfl⟩
  rw [h1]
  simp only [toggleMaximize, hi', hw']
  simp [maximizeGeometry, modifyWin_getElem?, hw]

/-- C3 (amended) at a concrete window: `placedWindow` gets its left, top and
width back and `auto` for the height it never had. -/
theorem toggleMaximize_twice_witness :
    ∃ w', (toggleMaximize "about" (toggleMaximize "about"
        (domContentLoaded [placedWindow] "none"))).windows[0]? = some w' ∧
      w'.dataMaximized = some "false" ∧
      w'.left = (if placedWindow.left = "" then "100px" else placedWindow.left) ∧
      w'.top = (if placedWindow.top = "" then "100px" else placedWindow.top) ∧
      w'.width = (if placedWindow.width = "" then "auto" else placedWindow.width) ∧
      w'.height = (if placedWindow.height = "" then "auto" else placedWindow.height) :=
  toggleMaximize_twice (domContentLoaded [placedWindow] "none") "about" 0
    { placedWindow with dataOpen := some "true", dataMinimized := some "false",
                        dataMaximized := some "false" }
    (by decide) (by decide) (by decide)

/-! ### Taskbar -/

theorem buttonsFrom_win (z : Int) (k : Nat) (ws : List Window) :
    (buttonsFrom z k ws).map Button.win =
      ((List.range ws.length).filter
        (fun i => decide (ws[i]?.map Window.dataOpen = some (some "true")))).map (· + k) := by
  induction ws generalizing k with
  | nil => simp [buttonsFrom]
  | cons w ws ih =>
    have hshift : (fun i : Nat => i + (k + 1)) = (fun i => i + k) ∘ Nat.succ := by
      funext i
      simp only [Function.comp]
      omega
    simp only [List.length_cons, List.range_succ_eq_map, List.filter_cons, List.filter_map,
      List.map_map]
    by_cases ho : w.dataOpen = some "true"
    · simp only [buttonsFrom, ho, if_true, List.map_cons, ih, mkButton, hshift]
      simp [ho, Function.comp_def]
    · simp only [buttonsFrom, ho, if_false, ih, hshift]
      simp [ho, Function.comp_def]

/-- C4: whatever the registry state, after `updateTaskbar` the windows the
taskbar buttons stand for are, in order, exactly the positions in the
document of the windows whose open flag is `true`: one button for each, no
other button, in document order.  Nothing but the open flags enters the
right-hand side, neither minimized flags nor stacking ranks. -/
theorem updateTaskbar_buttons (s : State) :
    (updateTaskbar s).taskbar.map Button.win =
      (List.range s.windows.length).filter
        (fun i => decide (s.windows[i]?.map Window.dataOpen = some (some "true"))) := by
  simp [updateTaskbar, buttonsFrom_win]

theorem updateTaskbar_idem (s : State) : updateTaskbar (updateTaskbar s) = updateTaskbar s :=
  rfl

/-- Every handler other than `toggleMaximize` leaves a taskbar that is what
`updateTaskbar` computes from the state it leaves. -/
theorem taskbar_synced_step (s : State) (a : Action) (hs : updateTaskbar s = s)
    (ha : ∀ id, a ≠ .toggleMaximize id) :
    updateTaskbar (step s a) = step s a := by
  cases a with
  | openWindow id => simp only [step, openWindow]; split <;> first | exact hs | rfl
  | closeWindow id => simp only [step, closeWindow]; split <;> first | exact hs | rfl
  | minimizeWindow id => simp only [step, minimizeWindow]; split <;> first | exact hs | rfl
  | toggleMaximize id => exact absurd rfl (ha id)
  | headerMouseDown i => simp only [step, headerMouseDown]; split <;> first | exact hs | rfl
  | taskbarClick i =>
    simp only [step, taskbarClick, btnOnClick]
    split
    · split
      · exact hs
      · split
        · rfl
        · split <;> rfl
    · exact hs
  | logout => rfl

/-- C5 fails at `toggleMaximize`: with `about` and `contact` open and the
taskbar up to date (`contact` pressed), `toggleMaximize('about')` raises
`about` to the counter but leaves the taskbar as it was, with `contact`
still pressed, whereas `updateTaskbar` on the resulting state presses
`about`. -/
theorem toggleMaximize_stale_taskbar :
    updateTaskbar twoOpen = twoOpen ∧
    (toggleMaximize "about" twoOpen).taskbar.map (fun b => (b.win, b.active)) =
      [(0, false), (1, true)] ∧
    (updateTaskbar (toggleMaximize "about" twoOpen)).taskbar.map (fun b => (b.win, b.active)) =
      [(0, true), (1, false)] ∧
    (toggleMaximize "about" twoOpen).taskbar ≠
      (updateTaskbar (toggleMaximize "about" twoOpen)).taskbar := by
  decide

theorem replaceFirst_append (pat rest : List Char) (h : pat ≠ []) :
    replaceFirst pat (pat ++ rest) = rest := by
  cases pat with
  | nil => exact absurd rfl h
  | cons p ps =>
    have hp : (p :: ps).isPrefixOf (p :: (ps ++ rest)) = true := by
      rw [List.isPrefixOf_iff_prefix]
      exact List.prefix_append (p :: ps) rest
    show (if (p :: ps).isPrefixOf (p :: (ps ++ rest)) = true
        then (p :: (ps ++ rest)).drop (p :: ps).length
        else p :: replaceFirst (p :: ps) (ps ++ rest)) = rest
    rw [if_pos hp]
    simp

/-- The name recovered from a DOM id of the form `window-<name>` is `<name>`. -/
theorem winIdOf_window (name : String) : winIdOf ("window-" ++ name) = name := by
  unfold winIdOf
  rw [String.data_append, replaceFirst_append _ _ (by decide)]

/-- C6: a click on the taskbar button of a window (DOM id `window-<name>`,
the element that id resolves to) does one of three things.  Hidden window:
it is shown, its minimized flag cleared, and it gets the incremented
counter as rank.  Shown window whose rank is the counter: it is minimized
(hidden, minimized flag `true`), the counter is unchanged.  Shown window of
another rank: its display is untouched and it gets the incremented counter
as rank.  No other window changes. -/
theorem taskbarClick_spec (s : State) (i : Nat) (w : Window) (name : String)
    (hb : ∃ b ∈ s.taskbar, b.win = i)
    (hw : s.windows[i]? = some w)
    (hid : w.id = "window-" ++ name)
    (hfirst : getElementById w.id s.windows = some i) :
    ∃ w', (taskbarClick i s).windows[i]? = some w' ∧
      (∀ j, j ≠ i → (taskbarClick i s).windows[j]? = s.windows[j]?) ∧
      (w.display = "none" →
        w'.display = "block" ∧ w'.dataMinimized = some "false" ∧
        (taskbarClick i s).zIndex = s.zIndex + 1 ∧
        w'.zIndex = .num (taskbarClick i s).zIndex) ∧
      (w.display ≠ "none" → w.zIndex.parseIntOrZero = some s.zIndex →
        w'.display = "none" ∧ w'.dataMinimized = some "true" ∧
        (taskbarClick i s).zIndex = s.zIndex ∧ w'.zIndex = w.zIndex) ∧
      (w.display ≠ "none" → w.zIndex.parseIntOrZero ≠ some s.zIndex →
        w'.display = w.display ∧ w'.dataMinimized = w.dataMinimized ∧
        (taskbarClick i s).zIndex = s.zIndex + 1 ∧
        w'.zIndex = .num (taskbarClick i s).zIndex) := by
  have hany : s.taskbar.any (fun b => b.win == i) = true := by
    obtain ⟨b, hbm, hbi⟩ := hb
    exact List.any_eq_true.mpr ⟨b, hbm, by simp [hbi]⟩
  have hmin : getElementById ("window-" ++ winIdOf w.id) s.windows = some i := by
    rw [hid, winIdOf_window, ← hid]
    exact hfirst
  by_cases hd : w.display = "none"
  · refine ⟨{ w with display := "block", dataMinimized := some "false",
                     zIndex := .num (s.zIndex + 1) }, ?_, ?_, ?_, ?_, ?_⟩
    · simp [taskbarClick, hany, btnOnClick, hw, hd, updateTaskbar, modifyWin_getElem?]
    · intro j hj
      simp [taskbarClick, hany, btnOnClick, hw, hd, updateTaskbar, modifyWin_getElem?, hj]
    · intro _
      simp [taskbarClick, hany, btnOnClick, hw, hd, updateTaskbar]
    · intro h
      exact absurd hd h
    · intro h
      exact absurd hd h
  · by_cases hz : w.zIndex.parseIntOrZero = some s.zIndex
    · refine ⟨{ w with display := "none", dataMinimized := some "true" }, ?_, ?_, ?_, ?_, ?_⟩
      · simp [taskbarClick, hany, btnOnClick, hw, hd, hz, updateTaskbar, minimizeWindow, hmin,
          modifyWin_getElem?]
      · intro j hj
        simp [taskbarClick, hany, btnOnClick, hw, hd, hz, updateTaskbar, minimizeWindow, hmin,
          modifyWin_getElem?, hj]
      · intro h
        exact absurd h hd
      · intro _ _
        simp [taskbarClick, hany, btnOnClick, hw, hd, hz, updateTaskbar, minimizeWindow, hmin]
      · intro _ h
        exact absurd hz h
    · refine ⟨{ w with zIndex := .num (s.zIndex + 1) }, ?_, ?_, ?_, ?_, ?_⟩
      · simp [taskbarClick, hany, btnOnClick, hw, hd, hz, updateTaskbar, modifyWin_getElem?]
      · intro j hj
        simp [taskbarClick, hany, btnOnClick, hw, hd, hz, updateTaskbar, modifyWin_getElem?, hj]
      · intro h
        exact absurd h hd
      · intro _ h
        exact absurd h hz
      · intro _ _
        simp [taskbarClick, hany, btnOnClick, hw, hd, hz, updateTaskbar]

/-- C6 at a concrete page: in `twoOpen` the `contact` window is shown and in
front, so the click on its button minimizes it. -/
theorem taskbarClick_spec_witness :
    ∃ w', (taskbarClick 1 twoOpen).windows[1]? = some w' ∧
      (∀ j, j ≠ 1 → (taskbarClick 1 twoOpen).windows[j]? = twoOpen.windows[j]?) ∧
      (contactWin.display = "none" →
        w'.display = "block" ∧ w'.dataMinimized = some "false" ∧
        (taskbarClick 1 twoOpen).zIndex = twoOpen.zIndex + 1 ∧
        w'.zIndex = .num (taskbarClick 1 twoOpen).zIndex) ∧
      (contactWin.display ≠ "none" → contactWin.zIndex.parseIntOrZero = some twoOpen.zIndex →
        w'.display = "none" ∧ w'.dataMinimized = some "true" ∧
        (taskbarClick 1 twoOpen).zIndex = twoOpen.zIndex ∧ w'.zIndex = contactWin.zIndex) ∧
      (contactWin.display ≠ "none" → contactWin.zIndex.parseIntOrZero ≠ some twoOpen.zIndex →
        w'.display = contactWin.display ∧ w'.dataMinimized = contactWin.dataMinimized ∧
        (taskbarClick 1 twoOpen).zIndex = twoOpen.zIndex + 1 ∧
        w'.zIndex = .num (taskbarClick 1 twoOpen).zIndex) :=
  taskbarClick_spec twoOpen 1 contactWin "contact" (by decide) (by decide) (by decide)
    (by decide)

/-! ### Explorer -/

theorem lastEntry_mem {α : Type} {key : String} {l : List (String × α)} {v : α}
    (h : lastEntry key l = some v) : ∃ k, (k, v) ∈ l := by
  induction l with
  | nil => simp [lastEntry] at h
  | cons p rest ih =>
    obtain ⟨k, u⟩ := p
    unfold lastEntry at h
    split at h
    · rename_i v' hv'
      cases h
      obtain ⟨k', hk'⟩ := ih hv'
      exact ⟨k', by simp [hk']⟩
    · split at h
      · cases h
        exact ⟨k, by simp⟩
      · cases h

theorem jsGet_own_iff (id : String) :
    (∃ f, jsGet fileSystem id = .own f) ↔ isFolderId id = true := by
  unfold jsGet isFolderId
  cases lastEntry id fileSystem with
  | none =>
    simp only [Option.isSome_none]
    constructor
    · rintro ⟨f, hf⟩
      split at hf <;> cases hf
    · intro h
      cases h
  | some v => simp

/-- Folder items of the table name folders of the table. -/
theorem fileSystem_items_closed :
    ∀ p ∈ fileSystem, ∀ it ∈ p.2.items, it.type = "folder" → isFolderId it.id = true := by
  decide

/-- Parents named in the table are folders of the table. -/
theorem fileSystem_parents_closed :
    ∀ p ∈ fileSystem, p.2.parent.all (fun par => isFolderId par) = true := by
  decide

/-- Rendering an id that is no inherited member name keeps the explorer on
a folder of the table. -/
theorem renderExplorer_ok (id : String) (e : Explorer) (h : ExplorerOk e)
    (hid : jsGet fileSystem id ≠ .inherited) : ExplorerOk (renderExplorer id e) := by
  unfold renderExplorer
  cases hg : e.grid with
  | none => simpa using h
  | some es0 =>
    simp only
    cases hl : jsGet fileSystem id with
    | undefined =>
      refine ⟨h.1, ?_⟩
      intro es hes en hen
      simp only [Option.some.injEq] at hes
      subst hes
      cases hen
    | inherited => exact absurd hl hid
    | own folder =>
      have hkey : isFolderId id = true := (jsGet_own_iff id).mp ⟨folder, hl⟩
      have hmem : ∃ k, (k, folder) ∈ fileSystem := by
        unfold jsGet at hl
        cases hle : lastEntry id fileSystem with
        | none =>
          rw [hle] at hl
          simp only at hl
          split at hl <;> cases hl
        | some v =>
          rw [hle] at hl
          simp only [JsLookup.own.injEq] at hl
          subst hl
          exact lastEntry_mem hle
      simp only
      cases ha : e.address with
      | none =>
        refine ⟨hkey, ?_⟩
        intro es hes en hen
        simp only [Option.some.injEq] at hes
        subst hes
        cases hen
      | some a =>
        refine ⟨hkey, ?_⟩
        intro es hes en hen hty
        simp only [Option.some.injEq] at hes
        subst hes
        simp only [List.mem_map] at hen
        obtain ⟨it, hit, rfl⟩ := hen
        obtain ⟨k, hk⟩ := hmem
        exact fileSystem_items_closed (k, folder) hk it hit hty

theorem isFolderId_not_inherited {id : String} (h : isFolderId id = true) :
    jsGet fileSystem id ≠ .inherited := by
  obtain ⟨f, hf⟩ := (jsGet_own_iff id).mpr h
  rw [hf]
  intro hc
  cases hc

theorem goBack_ok (d : State) (e : Explorer) (h : ExplorerOk e) : ExplorerOk (goBack d e) := by
  unfold goBack
  split
  · exact h
  · split
    · exact h
    · split
      · exact h
      · split
        · rename_i curr hcurr
          split
          · exact h
          · rename_i p hp
            split
            · exact h
            · have hmem : ∃ k, (k, curr) ∈ fileSystem := by
                unfold jsGet at hcurr
                cases hle : lastEntry e.currentPathId fileSystem with
                | none =>
                  rw [hle] at hcurr
                  simp only at hcurr
                  split at hcurr <;> cases hcurr
                | some v =>
                  rw [hle] at hcurr
                  simp only [JsLookup.own.injEq] at hcurr
                  subst hcurr
                  exact lastEntry_mem hle
              obtain ⟨k, hk⟩ := hmem
              have hpar := fileSystem_parents_closed (k, curr) hk
              simp only [hp, Option.all_some] at hpar
              exact renderExplorer_ok p e h (isFolderId_not_inherited hpar)
        · exact h

theorem gridClick_ok (k : Nat) (e : Explorer) (h : ExplorerOk e) :
    ExplorerOk (gridClick k e) := by
  unfold gridClick
  split
  · exact h
  · rename_i es hes
    split
    · exact h
    · rename_i entry hentry
      unfold entryOnClick
      split
      · rename_i hty
        exact renderExplorer_ok _ e h
          (isFolderId_not_inherited (h.2 es hes entry (List.getElem?_mem hentry) hty))
      · exact h

theorem explorerLoaded_ok : ExplorerOk explorerLoaded := by
  refine renderExplorer_ok "root" _ ⟨by decide, ?_⟩ (by decide)
  intro es hes en hen
  simp only [Option.some.injEq] at hes
  subst hes
  cases hen

/-- The part of C7 that holds: from the loaded explorer, any sequence of
`renderExplorer` calls whose ids are not names inherited from
`Object.prototype`, of `goBack`/`goUp` calls and of clicks on grid items
keeps `currentPathId` a key of the folder table. -/
theorem explorer_stays_in_table (acts : List ExplorerAction)
    (hacts : ∀ id, ExplorerAction.render id ∈ acts → id ∉ objectPrototypeKeys) :
    isFolderId (explorerRun explorerLoaded acts).currentPathId = true := by
  have key : ∀ (l : List ExplorerAction) (e : Explorer), ExplorerOk e →
      (∀ id, ExplorerAction.render id ∈ l → id ∉ objectPrototypeKeys) →
      ExplorerOk (explorerRun e l) := by
    intro l
    induction l with
    | nil => intro e he _; exact he
    | cons a rest ih =>
      intro e he hl
      refine ih (explorerStep e a) ?_ (fun id hid => hl id (by simp [hid]))
      cases a with
      | render id =>
        refine renderExplorer_ok id e he ?_
        have hnot := hl id (by simp)
        unfold jsGet
        split
        · intro hc; cases hc
        · simp [hnot]
      | goBack d => exact goBack_ok d e he
      | goUp d => exact goBack_ok d e he
      | click k => exact gridClick_ok k e he
  exact (key acts explorerLoaded explorerLoaded_ok hacts).1

/-- C7 fails at an inherited member name: `constructor` is not a key of the
folder table, yet `fileSystem['constructor']` is truthy, so
`renderExplorer('constructor')` on the loaded explorer passes the `!folder`
test and stores the id; `currentPathId` is then no key of the table, the
address reads `undefined` and the grid is empty. -/
theorem renderExplorer_inherited_key :
    explorerLoaded.currentPathId = "root" ∧
    isFolderId "constructor" = false ∧
    jsGet fileSystem "constructor" = .inherited ∧
    (renderExplorer "constructor" explorerLoaded).currentPathId = "constructor" ∧
    isFolderId (renderExplorer "constructor" explorerLoaded).currentPathId = false ∧
    (renderExplorer "constructor" explorerLoaded).address = some "undefined" ∧
    (renderExplorer "constructor" explorerLoaded).grid = some [] := by
  decide

/-- C8 fails: `nope` is not in the folder table and is no inherited member;
`renderExplorer('nope')` on the loaded explorer keeps the current folder id
and the address but empties the grid, which showed the four entries of
`root`. -/
theorem renderExplorer_unknown_clears_grid :
    jsGet fileSystem "nope" = .undefined ∧
    explorerLoaded.grid.map (fun es => es.map GridEntry.name) =
      some ["Websites", "Graphics", "Game", "Media"] ∧
    (renderExplorer "nope" explorerLoaded).currentPathId = explorerLoaded.currentPathId ∧
    (renderExplorer "nope" explorerLoaded).address = explorerLoaded.address ∧
    (renderExplorer "nope" explorerLoaded).grid = some [] ∧
    renderExplorer "nope" explorerLoaded ≠ explorerLoaded := by
  decide

/-! ### Gallery -/

theorem updateGalleryImage_index (g : Gallery) :
    (updateGalleryImage g).currentImgIndex = g.currentImgIndex ∧
    (updateGalleryImage g).galleryImages = g.galleryImages ∧
    (updateGalleryImage g).overlayDisplay = g.overlayDisplay := by
  unfold updateGalleryImage
  split <;> exact ⟨rfl, rfl, rfl⟩

theorem jsFindIndex_none (p : Item → Bool) (l : List Item) (h : ∀ x ∈ l, p x = false) :
    jsFindIndex p l = -1 := by
  induction l with
  | nil => rfl
  | cons x xs ih =>
    have hx : p x = false := h x (by simp)
    have hxs := ih (fun y hy => h y (by simp [hy]))
    simp [jsFindIndex, hx, hxs]

theorem jsFindIndex_nonneg_of_mem (p : Item → Bool) (l : List Item) (x : Item) (hx : x ∈ l)
    (hp : p x = true) : 0 ≤ jsFindIndex p l := by
  induction l with
  | nil => cases hx
  | cons y ys ih =>
    by_cases hy : p y = true
    · simp [jsFindIndex, hy]
    · simp only [List.mem_cons] at hx
      rcases hx with rfl | hx
      · exact absurd hp hy
      · have := ih hx
        simp only [jsFindIndex, hy]
        split <;> omega

theorem jsFindIndex_first (p : Item → Bool) (l : List Item) (k : Nat) (x : Item)
    (hk : l[k]? = some x) (hp : p x = true)
    (hfirst : ∀ j, j < k → ∀ y, l[j]? = some y → p y = false) :
    jsFindIndex p l = (k : Int) := by
  induction l generalizing k with
  | nil => simp at hk
  | cons y ys ih =>
    cases k with
    | zero =>
      simp only [List.getElem?_cons_zero, Option.some.injEq] at hk
      subst hk
      simp [jsFindIndex, hp]
    | succ n =>
      have hy : p y = false := hfirst 0 (by omega) y (by simp)
      have hk' : ys[n]? = some x := by simpa using hk
      have hrec := ih n hk' (fun j hj z hz => hfirst (j + 1) (by omega) z (by simpa using hz))
      simp only [jsFindIndex, hy, hrec]
      have : ((n : Int) = -1) = False := by
        apply eq_false
        omega
      simp [this]

/-- C9: for a folder id of the folder table, `openGallery(folderId, startId)`
with at least one image item in the folder makes the gallery sequence the
folder's image items in their declared order, opens the overlay, and sets
the index to the position of the first image whose id is `startId`, or to 0
when no image has that id; with no image item the overlay's display is left
as it was. -/
theorem openGallery_spec (folderId startId : String) (g : Gallery) (folder : Folder)
    (hf : jsGet fileSystem folderId = .own folder) :
    (folder.items.filter (fun i => i.type = "image") ≠ [] →
      (openGallery folderId startId g).galleryImages =
        folder.items.filter (fun i => i.type = "image") ∧
      (openGallery folderId startId g).overlayDisplay = "flex" ∧
      (∀ (k : Nat) (x : Item),
        (folder.items.filter (fun i => i.type = "image"))[k]? = some x → x.id = startId →
        (∀ j, j < k → ∀ y, (folder.items.filter (fun i => i.type = "image"))[j]? = some y →
          y.id ≠ startId) →
        (openGallery folderId startId g).currentImgIndex = (k : Int)) ∧
      ((∀ x ∈ folder.items.filter (fun i => i.type = "image"), x.id ≠ startId) →
        (openGallery folderId startId g).currentImgIndex = 0)) ∧
    (folder.items.filter (fun i => i.type = "image") = [] →
      (openGallery folderId startId g).overlayDisplay = g.overlayDisplay) := by
  constructor
  · intro hne
    have hlen : (folder.items.filter (fun i => decide (i.type = "image"))).length ≠ 0 := by
      simpa using hne
    refine ⟨?_, ?_, ?_, ?_⟩
    · simp only [openGallery, hf, hlen, if_false]
      exact (updateGalleryImage_index _).2.1
    · simp only [openGallery, hf, hlen, if_false]
    · intro k x hk hx hfirst
      have hfi := jsFindIndex_first (fun i => decide (i.id = startId)) _ k x hk (by simp [hx])
        (fun j hj y hy => by simpa using hfirst j hj y hy)
      simp only [openGallery, hf, hlen, if_false]
      rw [(updateGalleryImage_index _).1]
      simp only [hfi]
      split
      · omega
      · rfl
    · intro hnone
      have hfi := jsFindIndex_none (fun i => decide (i.id = startId)) _
        (fun x hx => by simpa using hnone x hx)
      simp only [openGallery, hf, hlen, if_false]
      rw [(updateGalleryImage_index _).1]
      simp [hfi]
  · intro hnil
    simp [openGallery, hf, hnil]

/-- C9 on the `graphics` folder, started at `img3`. -/
theorem openGallery_spec_witness :
    (graphicsFolder.items.filter (fun i => i.type = "image") ≠ [] →
      (openGallery "graphics" "img3" galleryInit).galleryImages =
        graphicsFolder.items.filter (fun i => i.type = "image") ∧
      (openGallery "graphics" "img3" galleryInit).overlayDisplay = "flex" ∧
      (∀ (k : Nat) (x : Item),
        (graphicsFolder.items.filter (fun i => i.type = "image"))[k]? = some x →
        x.id = "img3" →
        (∀ j, j < k → ∀ y, (graphicsFolder.items.filter (fun i => i.type = "image"))[j]? = some y →
          y.id ≠ "img3") →
        (openGallery "graphics" "img3" galleryInit).currentImgIndex = (k : Int)) ∧
      ((∀ x ∈ graphicsFolder.items.filter (fun i => i.type = "image"), x.id ≠ "img3") →
        (openGallery "graphics" "img3" galleryInit).currentImgIndex = 0)) ∧
    (graphicsFolder.items.filter (fun i => i.type = "image") = [] →
      (openGallery "graphics" "img3" galleryInit).overlayDisplay = galleryInit.overlayDisplay) :=
  openGallery_spec "graphics" "img3" galleryInit graphicsFolder (by decide)

/-- C10: in a gallery of `n ≥ 1` images at index `i` with `0 ≤ i < n`,
`nextImage` sets the index to `(i + 1) mod n` and `prevImage` sets it to
`(i - 1) mod n`; so `prevImage` at index 0 gives `n - 1` and `nextImage` at
index `n - 1` gives 0. -/
theorem gallery_cyclic (g : Gallery) (i : Nat)
    (hn : 1 ≤ g.galleryImages.length)
    (hi : g.currentImgIndex = (i : Int))
    (hlt : i < g.galleryImages.length) :
    (nextImage g).currentImgIndex = ((i : Int) + 1) % (g.galleryImages.length : Int) ∧
    (prevImage g).currentImgIndex = ((i : Int) - 1) % (g.galleryImages.length : Int) ∧
    (i = 0 → (prevImage g).currentImgIndex = (g.galleryImages.length : Int) - 1) ∧
    (i = g.galleryImages.length - 1 → (nextImage g).currentImgIndex = 0) := by
  have hnext : (nextImage g).currentImgIndex =
      if (i : Int) + 1 ≥ (g.galleryImages.length : Int) then 0 else (i : Int) + 1 := by
    simp only [nextImage, (updateGalleryImage_index _).1, hi]
  have hprev : (prevImage g).currentImgIndex =
      if (i : Int) - 1 < 0 then (g.galleryImages.length : Int) - 1 else (i : Int) - 1 := by
    simp only [prevImage, (updateGalleryImage_index _).1, hi]
  refine ⟨?_, ?_, ?_, ?_⟩
  · rw [hnext]
    split
    · have he : (i : Int) + 1 = (g.galleryImages.length : Int) := by omega
      rw [he, Int.emod_self]
    · rw [Int.emod_eq_of_lt (by omega) (by omega)]
  · rw [hprev]
    split
    · have he : (i : Int) - 1 = ((g.galleryImages.length : Int) - 1) +
          (g.galleryImages.length : Int) * (-1) := by omega
      rw [he, Int.add_mul_emod_self_left, Int.emod_eq_of_lt (by omega) (by omega)]
    · rw [Int.emod_eq_of_lt (by omega) (by omega)]
  · intro h0
    rw [hprev]
    subst h0
    simp
  · intro hl
    rw [hnext]
    have : (i : Int) + 1 ≥ (g.galleryImages.length : Int) := by omega
    simp [this]

/-- C10 on the eight images of `graphics`, at the last index 7: `nextImage`
wraps to 0 and `prevImage` gives 6. -/
theorem gallery_cyclic_witness :
    (nextImage sampleGallery).currentImgIndex =
      (((7 : Nat) : Int) + 1) % (sampleGallery.galleryImages.length : Int) ∧
    (prevImage sampleGallery).currentImgIndex =
      (((7 : Nat) : Int) - 1) % (sampleGallery.galleryImages.length : Int) ∧
    ((7 : Nat) = 0 →
      (prevImage sampleGallery).currentImgIndex = (sampleGallery.galleryImages.length : Int) - 1) ∧
    ((7 : Nat) = sampleGallery.galleryImages.length - 1 →
      (nextImage sampleGallery).currentImgIndex = 0) :=
  gallery_cyclic sampleGallery 7 (by decide) (by decide) (by decide)

theorem jsFindIndex_range (p : Item → Bool) (l : List Item) :
    jsFindIndex p l = -1 ∨ (0 ≤ jsFindIndex p l ∧ jsFindIndex p l < (l.length : Int)) := by
  induction l with
  | nil => exact Or.inl rfl
  | cons x xs ih =>
    by_cases hx : p x = true
    · refine Or.inr ?_
      simp only [jsFindIndex, hx, if_true, List.length_cons]
      omega
    · simp only [jsFindIndex, hx, List.length_cons]
      rcases ih with h | ⟨h1, h2⟩
      · simp [h]
      · refine Or.inr ?_
        have hne : ¬ jsFindIndex p xs = -1 := by omega
        simp only [hne, if_false]
        push_cast
        omega

/-- A non-empty gallery sequence comes with an index inside it. -/
theorem galleryStep_inBounds (g : Gallery) (a : GalleryAction)
    (h : g.galleryImages ≠ [] →
      0 ≤ g.currentImgIndex ∧ g.currentImgIndex < (g.galleryImages.length : Int)) :
    (galleryStep g a).galleryImages ≠ [] →
      0 ≤ (galleryStep g a).currentImgIndex ∧
      (galleryStep g a).currentImgIndex < ((galleryStep g a).galleryImages.length : Int) := by
  cases a with
  | closeGallery => exact h
  | nextImage =>
    simp only [galleryStep, nextImage, (updateGalleryImage_index _).1,
      (updateGalleryImage_index _).2.1]
    intro hne
    have hb := h hne
    split <;> omega
  | prevImage =>
    simp only [galleryStep, prevImage, (updateGalleryImage_index _).1,
      (updateGalleryImage_index _).2.1]
    intro hne
    have hb := h hne
    split <;> omega
  | openGallery folderId startImageId =>
    simp only [galleryStep, openGallery]
    split
    · exact h
    · exact h
    · rename_i folder _
      split
      · rename_i hlen
        intro hne
        exact absurd (List.length_eq_zero.mp hlen) hne
      · rename_i hlen
        intro _
        simp only [(updateGalleryImage_index _).1, (updateGalleryImage_index _).2.1]
        have hpos : 0 < ((folder.items.filter (fun i => decide (i.type = "image"))).length : Int) := by
          have : (folder.items.filter (fun i => decide (i.type = "image"))).length ≠ 0 := hlen
          omega
        rcases jsFindIndex_range (fun i => decide (i.id = startImageId))
          (folder.items.filter (fun i => decide (i.type = "image"))) with hr | ⟨h1, h2⟩
        · simp only [hr, if_true]
          exact ⟨le_refl _, hpos⟩
        · have hne : ¬ jsFindIndex (fun i => decide (i.id = startImageId))
              (folder.items.filter (fun i => decide (i.type = "image"))) = -1 := by omega
          simp only [hne, if_false]
          exact ⟨h1, h2⟩

/-- An index inside the sequence finds an image. -/
theorem imageAt_isSome (g : Gallery) (h0 : 0 ≤ g.currentImgIndex)
    (h1 : g.currentImgIndex < (g.galleryImages.length : Int)) : (imageAt g).isSome = true := by
  unfold imageAt
  have hn : ¬ g.currentImgIndex < 0 := by omega
  simp only [hn, if_false]
  have hlt : g.currentImgIndex.toNat < g.galleryImages.length := by omega
  simp [List.getElem?_eq_getElem hlt]

/-- C11 (as stated) fails: before any call the gallery sequence is empty, so
the index 0 is not below its length and no image is found; the same holds
after `nextImage` on the initial state, and after `openGallery` on the
image-less folder `unity` following a session on `graphics`, where the
overlay is still shown and the index is still 7. -/
theorem gallery_bounds_counterexample :
    ¬ (0 ≤ (galleryRun galleryInit []).currentImgIndex ∧
       (galleryRun galleryInit []).currentImgIndex <
         ((galleryRun galleryInit []).galleryImages.length : Int)) ∧
    imageAt (galleryRun galleryInit []) = none ∧
    ¬ ((galleryRun galleryInit [.nextImage]).currentImgIndex <
         ((galleryRun galleryInit [.nextImage]).galleryImages.length : Int)) ∧
    (galleryRun galleryInit [.openGallery "graphics" "img8", .openGallery "unity" "game1"]
      ).overlayDisplay = "flex" ∧
    (galleryRun galleryInit [.openGallery "graphics" "img8", .openGallery "unity" "game1"]
      ).currentImgIndex = 7 ∧
    (galleryRun galleryInit [.openGallery "graphics" "img8", .openGallery "unity" "game1"]
      ).galleryImages = [] := by
  decide

/-- C11 (amended): in every state reachable from the initial state by
`openGallery` (any folder id, any start id), `nextImage`, `prevImage` and
`closeGallery`, a non-empty gallery sequence comes with an index within its
bounds, so the image looked up by `updateGalleryImage` exists. -/
theorem gallery_bounds (acts : List GalleryAction)
    (hne : (galleryRun galleryInit acts).galleryImages ≠ []) :
    0 ≤ (galleryRun galleryInit acts).currentImgIndex ∧
    (galleryRun galleryInit acts).currentImgIndex <
      ((galleryRun galleryInit acts).galleryImages.length : Int) ∧
    (imageAt (galleryRun galleryInit acts)).isSome = true := by
  have key : ∀ (l : List GalleryAction) (g : Gallery),
      (g.galleryImages ≠ [] →
        0 ≤ g.currentImgIndex ∧ g.currentImgIndex < (g.galleryImages.length : Int)) →
      (galleryRun g l).galleryImages ≠ [] →
        0 ≤ (galleryRun g l).currentImgIndex ∧
        (galleryRun g l).currentImgIndex < ((galleryRun g l).galleryImages.length : Int) := by
    intro l
    induction l with
    | nil => intro g hg; exact hg
    | cons a rest ih => intro g hg; exact ih (galleryStep g a) (galleryStep_inBounds g a hg)
  have hb := key acts galleryInit (fun h => absurd rfl h) hne
  exact ⟨hb.1, hb.2, imageAt_isSome _ hb.1 hb.2⟩

/-- C11 (amended) on a session: `graphics` opened at `img8`, one step on,
closed, one step back. -/
theorem gallery_bounds_witness :
    0 ≤ (galleryRun galleryInit
      [.openGallery "graphics" "img8", .nextImage, .closeGallery, .prevImage]).currentImgIndex ∧
    (galleryRun galleryInit
      [.openGallery "graphics" "img8", .nextImage, .closeGallery, .prevImage]).currentImgIndex <
      ((galleryRun galleryInit
        [.openGallery "graphics" "img8", .nextImage, .closeGallery,
         .prevImage]).galleryImages.length : Int) ∧
    (imageAt (galleryRun galleryInit
      [.openGallery "graphics" "img8", .nextImage, .closeGallery, .prevImage])).isSome = true :=
  gallery_bounds [.openGallery "graphics" "img8", .nextImage, .closeGallery, .prevImage]
    (by decide)

/-- C12 (as stated) fails: `graphics` has eight images and, opened at `img3`,
shows `tourny_logo.png (3 of 8)`; seven calls of `nextImage` later the index
is 1 and the caption reads `email_banner.png (2 of 8)`, so the displayed
position is 2, not 3. -/
theorem gallery_third_of_eight_counterexample :
    graphicsAtThird.galleryImages.length = 8 ∧
    graphicsAtThird.caption = "tourny_logo.png (3 of 8)" ∧
    (galleryRun graphicsAtThird (List.replicate 7 .nextImage)).currentImgIndex + 1 = 2 ∧
    (galleryRun graphicsAtThird (List.replicate 7 .nextImage)).caption =
      "email_banner.png (2 of 8)" ∧
    (galleryRun graphicsAtThird (List.replicate 7 .nextImage)).currentImgIndex + 1 ≠ 3 := by
  decide

/-- C12 (amended): opening the gallery on `graphics` (eight images) at its
third image `img3` gives the caption `tourny_logo.png (3 of 8)`, the name
being that of the third image, and after eight subsequent calls of
`nextImage` the displayed position is 3 again, under the same caption. -/
theorem gallery_third_of_eight :
    graphicsAtThird.galleryImages.length = 8 ∧
    graphicsAtThird.overlayDisplay = "flex" ∧
    graphicsAtThird.currentImgIndex + 1 = 3 ∧
    graphicsAtThird.galleryImages[2]?.map Item.name = some "tourny_logo.png" ∧
    graphicsAtThird.caption = "tourny_logo.png (3 of 8)" ∧
    (galleryRun graphicsAtThird (List.replicate 8 .nextImage)).currentImgIndex + 1 = 3 ∧
    (galleryRun graphicsAtThird (List.replicate 8 .nextImage)).caption =
      "tourny_logo.png (3 of 8)" := by
  decide

/-! ### Menus -/

theorem filter_open_map_close (bs : List MenuBtn) :
    ((bs.map (fun c => { c with openClass := false })).filter
      (fun b => b.openClass)).length = 0 := by
  induction bs with
  | nil => rfl
  | cons b bs ih => simp

theorem toggle_closeOthers_count (k : Nat) (bs : List MenuBtn) :
    ((toggleOpenAt k (closeOthers k bs)).filter (fun b => b.openClass)).length ≤ 1 := by
  induction bs generalizing k with
  | nil => cases k <;> simp [closeOthers, toggleOpenAt]
  | cons b bs ih =>
    cases k with
    | zero =>
      have h0 := filter_open_map_close bs
      simp only [closeOthers, toggleOpenAt, List.filter_cons]
      split
      · simp only [List.length_cons]
        omega
      · omega
    | succ n =>
      have hn := ih n
      simpa [closeOthers, toggleOpenAt] using hn

theorem toggle_closeOthers_getElem? (k j : Nat) (bs : List MenuBtn) :
    (toggleOpenAt k (closeOthers k bs))[j]? =
      if j = k then bs[j]?.map (fun b => { b with openClass := !b.openClass })
      else bs[j]?.map (fun c => { c with openClass := false }) := by
  induction bs generalizing k j with
  | nil => cases k <;> simp [closeOthers, toggleOpenAt]
  | cons b bs ih =>
    cases k with
    | zero =>
      cases j with
      | zero => simp [closeOthers, toggleOpenAt]
      | succ m => simp [closeOthers, toggleOpenAt]
    | succ n =>
      cases j with
      | zero => simp [closeOthers, toggleOpenAt]
      | succ m => simp [closeOthers, toggleOpenAt, ih]

/-- No menu event leaves more than one window menu button open, if at most
one was open before. -/
theorem menuStep_windowMenus (m : Menus) (a : MenuAction) (h : openWindowMenus m ≤ 1) :
    openWindowMenus (menuStep m a) ≤ 1 := by
  cases a with
  | toggleStartMenu => exact h
  | toggleWindowMenu k =>
    simp only [menuStep, toggleWindowMenu]
    split
    · exact h
    · split
      · exact h
      · exact toggle_closeOthers_count k m.menuBtns
  | documentClick t =>
    simp only [menuStep, documentClick]
    split
    · exact le_of_eq_of_le (filter_open_map_close _) (Nat.zero_le 1)
    · split <;> exact h

/-- C13 fails on a click the page offers: with the start menu shown after a
click on the start button, a click on the first (enabled) menu button opens
that menu and stops the event, so the document listener never closes the
start menu; two top-level menus are open.  Had the click reached the
listener, the start menu would be hidden and one menu open; and in the other
order, window menu first and start button second, the listener does close
the window menu. -/
theorem menuBtnClick_keeps_startMenu :
    openMenus sampleMenus = 0 ∧
    (startButtonClick sampleMenus).startMenu = "flex" ∧
    openMenus (startButtonClick sampleMenus) = 1 ∧
    (menuBtnClick 0 (startButtonClick sampleMenus)).startMenu = "flex" ∧
    (menuBtnClick 0 (startButtonClick sampleMenus)).menuBtns.map MenuBtn.openClass =
      [true, false] ∧
    openMenus (menuBtnClick 0 (startButtonClick sampleMenus)) = 2 ∧
    openMenus (documentClick { inStartMenu := false, inStartButton := false, inMenuBtn := true }
      (menuBtnClick 0 (startButtonClick sampleMenus))) = 1 ∧
    openMenus (startButtonClick (menuBtnClick 0 sampleMenus)) = 1 := by
  decide

/-- The part of C13 that holds, among the window menus: from a page with at
most one window menu button open, in every state reachable by
`toggleStartMenu`, `toggleWindowMenu` (on any menu button) and document clicks, at most one window menu button is open; and
toggling a closed, enabled menu button there opens it and leaves every other
menu button closed. -/
theorem window_menus_single_open (m0 : Menus) (h0 : openWindowMenus m0 ≤ 1)
    (acts : List MenuAction) :
    openWindowMenus (menuRun m0 acts) ≤ 1 ∧
    ∀ k b, (menuRun m0 acts).menuBtns[k]? = some b →
      b.menuDisabled = false → b.openClass = false →
      ∀ j c, (toggleWindowMenu k (menuRun m0 acts)).menuBtns[j]? = some c →
        (c.openClass = true ↔ j = k) := by
  constructor
  · have key : ∀ (l : List MenuAction) (m : Menus), openWindowMenus m ≤ 1 →
        openWindowMenus (menuRun m l) ≤ 1 := by
      intro l
      induction l with
      | nil => intro m hm; exact hm
      | cons a rest ih => intro m hm; exact ih (menuStep m a) (menuStep_windowMenus m a hm)
    exact key acts m0 h0
  · intro k b hb hdis hopen j c hc
    simp only [toggleWindowMenu, hb, hdis, Bool.false_eq_true, if_false,
      toggle_closeOthers_getElem?] at hc
    by_cases hjk : j = k
    · subst hjk
      simp only [if_true, hb, Option.map_some', Option.some.injEq] at hc
      subst hc
      simp [hopen]
    · simp only [hjk, if_false, Option.map_eq_some'] at hc
      obtain ⟨c0, _, rfl⟩ := hc
      simp [hjk]

/-- The window menus on a session: the start menu is opened, the first menu
button, then the second; only the second stays open among the menu buttons,
and toggling the first again there opens it alone. -/
theorem window_menus_single_open_witness :
    openWindowMenus (menuRun sampleMenus
      [.toggleStartMenu, .toggleWindowMenu 0, .toggleWindowMenu 1]) ≤ 1 ∧
    ∀ k b, (menuRun sampleMenus
        [.toggleStartMenu, .toggleWindowMenu 0, .toggleWindowMenu 1]).menuBtns[k]? = some b →
      b.menuDisabled = false → b.openClass = false →
      ∀ j c, (toggleWindowMenu k (menuRun sampleMenus
          [.toggleStartMenu, .toggleWindowMenu 0, .toggleWindowMenu 1])).menuBtns[j]? = some c →
        (c.openClass = true ↔ j = k) :=
  window_menus_single_open sampleMenus (by decide)
    [.toggleStartMenu, .toggleWindowMenu 0, .toggleWindowMenu 1]

end XPDesktop
